import Mathlib

/-!
Verification of the interactive-session logic of `examples/consoles.py`
(mininet miniature-console demo).

Text is modelled as lists of byte values (`List Nat`).  The `Console`
structure embeds the state a `Console` object carries that the claims
are about: its underlying node, its `prompt` string, and the text widget
contents (`buffer`).  The node object (`mininet.node.Node`) is code of
this repository that is not under `src/`; its state and methods are
modelled from the spec where noted.
-/

/-- State of a mininet node as seen by the console.

Modelled from the spec: `mininet.node.Node` is not under `src/`.  Per the
spec, a node exposes a boolean `waiting` (true while a dispatched command
has not completed), a write channel to the process input (`writes`
records everything written, in order), an interrupt channel (`ints`
counts interrupts sent), and a stable identity string `name` used to
build the prompt. -/
structure Node where
  name : List Nat
  waiting : Bool
  writes : List Nat
  ints : Nat
deriving DecidableEq

/-- The prompt string the node's shell echoes: `name + "# "`
(bytes 0x23 0x20). -/
def Node.prompt (n : Node) : List Nat :=
  n.name ++ [35, 32]

/-- Modelled from the spec: `Node.sendCmd` writes the command followed by
a line terminator (newline, byte 10) to the process input and
transitions the node to `Waiting`. -/
def Node.sendCmd (n : Node) (cmd : List Nat) : Node :=
  { n with waiting := true, writes := n.writes ++ cmd ++ [10] }

/-- Modelled from the spec: `Node.write` forwards characters verbatim to
the process input without buffering. -/
def Node.write (n : Node) (chars : List Nat) : Node :=
  { n with writes := n.writes ++ chars }

/-- Modelled from the spec: `Node.sendInt` sends an interrupt signal to
the process and forces the transition to idle regardless of prior
state. -/
def Node.sendInt (n : Node) : Node :=
  { n with waiting := false, ints := n.ints + 1 }

/-- `isIgnored b` is true exactly when byte `b` falls in the character
class of the source regex `ignoreChars`:
`[\x00-\x07\x09\x0b\x0c\x0e-\x1f]`. -/
def isIgnored (b : Nat) : Bool :=
  decide (b ≤ 7) || b == 9 || b == 11 || b == 12 ||
    (decide (14 ≤ b) && decide (b ≤ 31))

/-- `ignoreChars.sub('', text)`: substituting every (maximal) run of
characters of the class by the empty string removes exactly the bytes of
the class, keeping everything else in order. -/
def ignoreCharsSub (t : List Nat) : List Nat :=
  t.filter (fun b => !isIgnored b)

/-- Modelled from the spec: `Node.monitor` reads one chunk of available
output (here the chunk is an input of the model); the node transitions
`Waiting → Idle` exactly when its prompt string reappears in the
incoming output.  `findSub`/`containsSub` below give substring search. -/
def findSub (p : List Nat) : List Nat → Option Nat
  | [] => if List.isPrefixOf p [] then some 0 else none
  | c :: rest =>
      if List.isPrefixOf p (c :: rest) then some 0
      else (findSub p rest).map (fun k => k + 1)

/-- `containsSub p l` is true when `p` occurs as a contiguous substring
of `l`. -/
def containsSub (p l : List Nat) : Bool :=
  (findSub p l).isSome

/-- Modelled from the spec: see `findSub`.  Returns the chunk read and
the updated node. -/
def Node.monitor (n : Node) (chunk : List Nat) : List Nat × Node :=
  (chunk, if containsSub n.prompt chunk then { n with waiting := false } else n)

/-- The console state the claims are about: the node, the prompt
(`node.name + '# '` at construction) and the text-widget contents. -/
structure Console where
  node : Node
  prompt : List Nat
  buffer : List Nat
deriving DecidableEq

/-- `Console.append`: filters the text through `ignoreChars.sub` and
inserts it at the end of the text widget. -/
def Console.append (s : Console) (text : List Nat) : Console :=
  { s with buffer := s.buffer ++ ignoreCharsSub text }

/-- `Console.sendCmd`: sends a command to the node, guarded by
`if not node.waiting`. -/
def Console.sendCmd (s : Console) (cmd : List Nat) : Console :=
  if s.node.waiting then s else { s with node := s.node.sendCmd cmd }

/-- `Console.handleKey`: if the node is waiting (interactive command),
forward the typed character to the node; otherwise do nothing.
`char` is the event's character (possibly empty). -/
def Console.handleKey (s : Console) (char : List Nat) : Console :=
  if s.node.waiting then { s with node := s.node.write char } else s

/-- The command-body extraction of `Console.handleReturn`:
`pos = cmd.find(prompt); if pos >= 0: cmd = cmd[pos + len(prompt):]`. -/
def routeCmd (prompt line : List Nat) : List Nat :=
  match findSub prompt line with
  | some pos => line.drop (pos + prompt.length)
  | none => line

/-- `Console.handleReturn`: `line` is the current input line of the text
widget, `eventChar` the event's character.  If the node is waiting the
character is written through; otherwise the line, with everything up to
and including the first prompt occurrence stripped, is sent as a
command. -/
def Console.handleReturn (s : Console) (line eventChar : List Nat) : Console :=
  if s.node.waiting then { s with node := s.node.write eventChar }
  else s.sendCmd (routeCmd s.prompt line)

/-- `Console.handleInt`: handle control-c by calling `node.sendInt()`. -/
def Console.handleInt (s : Console) : Console :=
  { s with node := s.node.sendInt }

/-- `Console.handleReadable`: `data = node.monitor(timeoutms);
append(data); if not node.waiting: append(prompt)`.  The available chunk
is an input of the model; the Python function returns `None`. -/
def Console.handleReadable (s : Console) (chunk : List Nat) : Console :=
  let r := s.node.monitor chunk
  let s1 := Console.append { s with node := r.2 } r.1
  if s1.node.waiting then s1 else s1.append s.prompt

/-- `Console.clear`: delete all text. -/
def Console.clear (s : Console) : Console :=
  { s with buffer := [] }

/-- The bytes of the string `export TERM=dumb` sent by the
constructor. -/
def exportTermDumb : List Nat :=
  [101, 120, 112, 111, 114, 116, 32, 84, 69, 82, 77, 61, 100, 117, 109, 98]

/-- `Console.__init__`: sets `prompt = node.name + '# '`, an empty text
widget, and then calls `self.sendCmd('export TERM=dumb')`. -/
def Console.init (n : Node) : Console :=
  Console.sendCmd { node := n, prompt := n.name ++ [35, 32], buffer := [] }
    exportTermDumb

/-! ### Lemmas about substring search -/

lemma findSub_some_spec (p : List Nat) :
    ∀ (l : List Nat) (i : Nat), findSub p l = some i →
      List.isPrefixOf p (l.drop i) = true ∧
      ∀ j, j < i → List.isPrefixOf p (l.drop j) = false := by
  intro l
  induction l with
  | nil =>
      intro i h
      unfold findSub at h
      by_cases hp : List.isPrefixOf p ([] : List Nat) = true
      · simp [hp] at h
        subst h
        exact ⟨hp, fun j hj => absurd hj (Nat.not_lt_zero j)⟩
      · simp [Bool.eq_false_iff.mpr hp] at h
  | cons c rest ih =>
      intro i h
      unfold findSub at h
      by_cases hp : List.isPrefixOf p (c :: rest) = true
      · simp [hp] at h
        subst h
        exact ⟨hp, fun j hj => absurd hj (Nat.not_lt_zero j)⟩
      · simp [Bool.eq_false_iff.mpr hp] at h
        obtain ⟨k, hk, hki⟩ := h
        obtain ⟨h1, h2⟩ := ih k hk
        subst hki
        refine ⟨by simpa using h1, ?_⟩
        intro j hj
        cases j with
        | zero => simpa using Bool.eq_false_iff.mpr hp
        | succ j0 =>
            have : j0 < k := Nat.lt_of_succ_lt_succ hj
            simpa using h2 j0 this

lemma findSub_none_spec (p : List Nat) :
    ∀ (l : List Nat), findSub p l = none →
      ∀ j, List.isPrefixOf p (l.drop j) = false := by
  intro l
  induction l with
  | nil =>
      intro h j
      unfold findSub at h
      by_cases hp : List.isPrefixOf p ([] : List Nat) = true
      · simp [hp] at h
      · simpa using Bool.eq_false_iff.mpr hp
  | cons c rest ih =>
      intro h j
      unfold findSub at h
      by_cases hp : List.isPrefixOf p (c :: rest) = true
      · simp [hp] at h
      · simp [Bool.eq_false_iff.mpr hp] at h
        cases j with
        | zero => simpa using Bool.eq_false_iff.mpr hp
        | succ j0 => simpa using ih h j0

lemma findSub_eq_some_of_first (p l : List Nat) (i : Nat)
    (h1 : List.isPrefixOf p (l.drop i) = true)
    (h2 : ∀ j, j < i → List.isPrefixOf p (l.drop j) = false) :
    findSub p l = some i := by
  cases hf : findSub p l with
  | none =>
      have := findSub_none_spec p l hf i
      rw [h1] at this
      exact absurd this (by simp)
  | some k =>
      obtain ⟨hk1, hk2⟩ := findSub_some_spec p l k hf
      rcases Nat.lt_trichotomy k i with hlt | heq | hgt
      · have := h2 k hlt
        rw [hk1] at this
        exact absurd this (by simp)
      · rw [heq]
      · have := hk2 i hgt
        rw [h1] at this
        exact absurd this (by simp)

lemma findSub_eq_none_of_never (p l : List Nat)
    (h : ∀ j, List.isPrefixOf p (l.drop j) = false) :
    findSub p l = none := by
  cases hf : findSub p l with
  | none => rfl
  | some k =>
      have := (findSub_some_spec p l k hf).1
      rw [h k] at this
      exact absurd this (by simp)

lemma prompt_ne_nil (n : Node) : n.prompt ≠ [] := by
  unfold Node.prompt
  cases n.name <;> simp

lemma containsSub_prompt_nil (n : Node) : containsSub n.prompt [] = false := by
  unfold containsSub findSub
  have : List.isPrefixOf n.prompt ([] : List Nat) = false := by
    cases hp : n.prompt with
    | nil => exact absurd hp (prompt_ne_nil n)
    | cons c cs => simp [List.isPrefixOf]
  simp [this]

/-! ### Lemmas about the output filter -/

lemma isBNR_keep (c : Nat) (h : (c == 8 || c == 10 || c == 13) = true) :
    (!isIgnored c) = true := by
  simp only [Bool.or_eq_true, beq_iff_eq] at h
  rcases h with (h | h) | h <;> subst h <;> decide

lemma ignoreCharsSub_no_ignored (b : List Nat) :
    ∀ x ∈ ignoreCharsSub b, isIgnored x = false := by
  intro x hx
  have := List.of_mem_filter hx
  simpa using this

lemma ignoreCharsSub_preserves_bnr (b : List Nat) :
    (ignoreCharsSub b).filter (fun c => c == 8 || c == 10 || c == 13)
      = b.filter (fun c => c == 8 || c == 10 || c == 13) := by
  unfold ignoreCharsSub
  induction b with
  | nil => rfl
  | cons c rest ih =>
      by_cases hk : (!isIgnored c) = true
      · rw [List.filter_cons, List.filter_cons]
        by_cases hf : (c == 8 || c == 10 || c == 13) = true
        · simp only [hk, hf, if_true, List.filter_cons, ih]
        · simp only [hk, Bool.eq_false_iff.mpr hf, if_true, if_false,
            List.filter_cons, ih]
      · have hk0 : (!isIgnored c) = false := Bool.eq_false_iff.mpr hk
        have hf : (c == 8 || c == 10 || c == 13) = false := by
          cases hc : (c == 8 || c == 10 || c == 13) with
          | false => rfl
          | true =>
              have := isBNR_keep c hc
              rw [hk0] at this
              exact absurd this (by simp)
        rw [List.filter_cons, List.filter_cons]
        simp [hk0, hf, ih]

lemma ignoreCharsSub_idem (x : List Nat) :
    ignoreCharsSub (ignoreCharsSub x) = ignoreCharsSub x := by
  unfold ignoreCharsSub
  induction x with
  | nil => rfl
  | cons c rest ih =>
      rw [List.filter_cons]
      by_cases hk : (!isIgnored c) = true
      · simp only [hk, if_true, List.filter_cons, ih]
      · simp [Bool.eq_false_iff.mpr hk, ih]

lemma ignoreCharsSub_eq_self (l : List Nat)
    (h : (l.all fun c => !isIgnored c) = true) : ignoreCharsSub l = l := by
  unfold ignoreCharsSub
  rw [List.all_eq_true] at h
  exact List.filter_eq_self.mpr h

/-! ### Structural lemmas about `handleReadable` -/

lemma monitor_fst (n : Node) (chunk : List Nat) : (n.monitor chunk).1 = chunk :=
  rfl

lemma monitor_nil (n : Node) : n.monitor [] = ([], n) := by
  unfold Node.monitor
  rw [containsSub_prompt_nil n]
  simp

lemma handleReadable_node (s : Console) (chunk : List Nat) :
    (s.handleReadable chunk).node = (s.node.monitor chunk).2 := by
  unfold Console.handleReadable Console.append
  by_cases h : (s.node.monitor chunk).2.waiting = true
  · simp [h]
  · simp [Bool.eq_false_iff.mpr h]

lemma handleReadable_prompt (s : Console) (chunk : List Nat) :
    (s.handleReadable chunk).prompt = s.prompt := by
  unfold Console.handleReadable Console.append
  by_cases h : (s.node.monitor chunk).2.waiting = true
  · simp [h]
  · simp [Bool.eq_false_iff.mpr h]

lemma handleReadable_buffer_of_idle (s : Console) (chunk : List Nat)
    (hw : (s.node.monitor chunk).2.waiting = false) :
    (s.handleReadable chunk).buffer
      = s.buffer ++ ignoreCharsSub chunk ++ ignoreCharsSub s.prompt := by
  unfold Console.handleReadable Console.append
  simp [hw, monitor_fst]

/-! ### Concrete states used in witnesses and counterexamples -/

/-- A node named `h` with no outstanding command. -/
def nodeIdle : Node :=
  { name := [104], waiting := false, writes := [], ints := 0 }

/-- A console on an idle node. -/
def cIdle : Console :=
  { node := nodeIdle, prompt := [104, 35, 32], buffer := [] }

/-- A node named `h` with an outstanding command. -/
def nodeBusy : Node :=
  { name := [104], waiting := true, writes := [], ints := 0 }

/-- A console on a busy node. -/
def cBusy : Console :=
  { node := nodeBusy, prompt := [104, 35, 32], buffer := [] }

/-- A node named `mininet`, idle. -/
def nodeMn : Node :=
  { name := [109, 105, 110, 105, 110, 101, 116], waiting := false,
    writes := [], ints := 0 }

/-- A console on `nodeMn`; its prompt is the bytes of `mininet# `. -/
def cMn : Console :=
  { node := nodeMn, prompt := [109, 105, 110, 105, 110, 101, 116, 35, 32],
    buffer := [] }

/-- The bytes of the input line `mininet# ls`. -/
def lineMn : List Nat :=
  [109, 105, 110, 105, 110, 101, 116, 35, 32, 108, 115]

/-! ### The claims -/

/-- Claim C1: for every console state, immediately after `handleInt`
(which calls `node.sendInt()`) the node's `waiting` flag is false: the
transition to idle is forced regardless of the prior state. -/
theorem C1_sendInt_forces_idle (s : Console) :
    s.handleInt.node.waiting = false :=
  rfl

/-- Claim C2: while the node is waiting, `Console.sendCmd` leaves the
whole console state unchanged: the buffer, the waiting flag and the
bytes written to the process are all exactly as before. -/
theorem C2_sendCmd_noop_when_waiting (s : Console) (cmd : List Nat)
    (h : s.node.waiting = true) :
    s.sendCmd cmd = s := by
  unfold Console.sendCmd
  simp [h]

theorem C2_witness :
    cBusy.node.waiting = true ∧ Console.sendCmd cBusy [108, 115] = cBusy :=
  ⟨rfl, C2_sendCmd_noop_when_waiting cBusy [108, 115] rfl⟩

/-- Claim C3: while the node is waiting, both `handleKey` and
`handleReturn` route the input character to the process via
`Node.write`, and nothing else happens: no `sendCmd` dispatch, no
prompt stripping, no buffer change. -/
theorem C3_waiting_routes_via_write (s : Console) (line eventChar char : List Nat)
    (h : s.node.waiting = true) :
    s.handleKey char = { s with node := s.node.write char } ∧
    s.handleReturn line eventChar = { s with node := s.node.write eventChar } := by
  unfold Console.handleKey Console.handleReturn
  simp [h]

theorem C3_witness :
    cBusy.node.waiting = true ∧
    Console.handleKey cBusy [97] = { cBusy with node := cBusy.node.write [97] } ∧
    Console.handleReturn cBusy lineMn [13]
      = { cBusy with node := cBusy.node.write [13] } :=
  ⟨rfl, (C3_waiting_routes_via_write cBusy lineMn [13] [97] rfl).1,
    (C3_waiting_routes_via_write cBusy lineMn [13] [97] rfl).2⟩

/-- Claim C4: for an idle console, `handleReturn` dispatches the text
after the first occurrence of the prompt in the line (followed by the
line terminator the node appends); when the prompt does not occur in
the line at all, the whole line is dispatched unchanged. -/
theorem C4_prompt_stripping (s : Console) (line eventChar : List Nat)
    (hw : s.node.waiting = false) :
    ((∀ j, List.isPrefixOf s.prompt (line.drop j) = false) →
      (s.handleReturn line eventChar).node.writes
        = s.node.writes ++ line ++ [10]) ∧
    (∀ i, List.isPrefixOf s.prompt (line.drop i) = true →
      (∀ j, j < i → List.isPrefixOf s.prompt (line.drop j) = false) →
      (s.handleReturn line eventChar).node.writes
        = s.node.writes ++ line.drop (i + s.prompt.length) ++ [10]) := by
  constructor
  · intro hnone
    have hf := findSub_eq_none_of_never s.prompt line hnone
    unfold Console.handleReturn Console.sendCmd routeCmd Node.sendCmd
    simp [hw, hf]
  · intro i h1 h2
    have hf := findSub_eq_some_of_first s.prompt line i h1 h2
    unfold Console.handleReturn Console.sendCmd routeCmd Node.sendCmd
    simp [hw, hf]

theorem C4_witness :
    cMn.node.waiting = false ∧
    List.isPrefixOf cMn.prompt (lineMn.drop 0) = true ∧
    lineMn.drop (0 + cMn.prompt.length) = [108, 115] ∧
    (Console.handleReturn cMn lineMn [13]).node.writes
      = cMn.node.writes ++ lineMn.drop (0 + cMn.prompt.length) ++ [10] ∧
    (Console.handleReturn cMn [108, 115] [13]).node.writes
      = cMn.node.writes ++ [108, 115] ++ [10] :=
  ⟨rfl, by decide, by decide,
    (C4_prompt_stripping cMn lineMn [13] rfl).2 0 (by decide)
      (fun j hj => absurd hj (Nat.not_lt_zero j)),
    (C4_prompt_stripping cMn [108, 115] [13] rfl).1
      (fun j => by
        match j with
        | 0 => decide
        | 1 => decide
        | j + 2 =>
            rw [List.drop_eq_nil_of_le (by simp)]
            decide)⟩

/-- Claim C5: for every byte sequence, the output of the `ignoreChars`
substitution contains no byte of the disallowed class (0x00–0x07, 0x09,
0x0B–0x0C, 0x0E–0x1F), and the subsequence of backspace (8), line feed
(10) and carriage return (13) bytes is preserved in its original
order. -/
theorem C5_filter_removes_and_preserves (b : List Nat) :
    ((ignoreCharsSub b).all fun x => !isIgnored x) = true ∧
    (ignoreCharsSub b).filter (fun c => c == 8 || c == 10 || c == 13)
      = b.filter (fun c => c == 8 || c == 10 || c == 13) := by
  refine ⟨?_, ignoreCharsSub_preserves_bnr b⟩
  rw [List.all_eq_true]
  intro x hx
  simp [ignoreCharsSub_no_ignored b x hx]

/-- Claim C6: the output filter is idempotent: applying the
`ignoreChars` substitution twice gives the same result as applying it
once. -/
theorem C6_filter_idempotent (x : List Nat) :
    ignoreCharsSub (ignoreCharsSub x) = ignoreCharsSub x :=
  ignoreCharsSub_idem x

/-- Claim C7 counterexample: on an idle console, `handleReadable` with
no available data does change the state (it appends the prompt to the
buffer), so the claim that a poll timeout with no data leaves the state
unchanged is false. -/
theorem C7_counterexample : ¬ (Console.handleReadable cIdle [] = cIdle) := by
  decide

/-- Claim C7 (amended): `handleReadable` reads one chunk, filters it
through the `ignoreChars` substitution and appends the filtered chunk
to the buffer; while a command is outstanding and the chunk does not
contain the prompt, nothing else changes, and in particular a poll
timeout with no data leaves the state unchanged.  (When the node is not
waiting afterwards, the prompt is additionally appended — see C10 — and
the Python function returns None, not the chunk.) -/
theorem C7_amended_readable (s : Console) (chunk : List Nat)
    (hw : s.node.waiting = true)
    (hnp : containsSub s.node.prompt chunk = false) :
    s.handleReadable chunk = { s with buffer := s.buffer ++ ignoreCharsSub chunk } ∧
    s.handleReadable [] = s := by
  constructor
  · unfold Console.handleReadable Node.monitor Console.append
    simp [hnp, hw]
  · unfold Console.handleReadable Console.append
    rw [monitor_nil s.node]
    simp [hw, ignoreCharsSub]

theorem C7_witness :
    cBusy.node.waiting = true ∧
    containsSub cBusy.node.prompt [65, 0, 66] = false ∧
    (Console.handleReadable cBusy [65, 0, 66]
        = { cBusy with buffer := cBusy.buffer ++ ignoreCharsSub [65, 0, 66] } ∧
      Console.handleReadable cBusy [] = cBusy) :=
  ⟨rfl, by decide, C7_amended_readable cBusy [65, 0, 66] rfl (by decide)⟩

/-- Claim C8 counterexample: after the process stops producing data
(an end-of-stream read returning nothing) on an idle console, a
subsequent `sendCmd` still writes to the process: dispatch to the
session does not stop, there is no terminal dead status. -/
theorem C8_counterexample :
    (Console.sendCmd (Console.handleReadable cIdle []) [108, 115]).node.writes
      ≠ (Console.handleReadable cIdle []).node.writes := by
  decide

/-- Claim C8 (amended): the code has no dead status at all — the
session state space is only the `waiting` boolean.  After an
end-of-stream read (empty chunk) an idle session remains idle, and a
subsequent command is still dispatched to the process; nothing is
reported upward. -/
theorem C8_amended_no_dead_state (s : Console) (cmd : List Nat)
    (hw : s.node.waiting = false) :
    (s.handleReadable []).node.waiting = false ∧
    (Console.sendCmd (s.handleReadable []) cmd).node.writes
      = (s.handleReadable []).node.writes ++ cmd ++ [10] := by
  have hn : (s.handleReadable []).node = s.node := by
    rw [handleReadable_node, monitor_nil]
  constructor
  · rw [hn, hw]
  · unfold Console.sendCmd Node.sendCmd
    simp [hn, hw]

theorem C8_witness :
    cIdle.node.waiting = false ∧
    ((Console.handleReadable cIdle []).node.waiting = false ∧
      (Console.sendCmd (Console.handleReadable cIdle []) [108, 115]).node.writes
        = (Console.handleReadable cIdle []).node.writes ++ [108, 115] ++ [10]) :=
  ⟨rfl, C8_amended_no_dead_state cIdle [108, 115] rfl⟩

/-- Claim C9 counterexample: for an idle node, immediately after the
`Console` constructor runs, the waiting flag is true and bytes have
been written to the process — the constructor itself dispatches a
command — so the claim that a freshly constructed session is idle with
no command dispatched is false. -/
theorem C9_counterexample :
    ¬ ((Console.init nodeIdle).node.waiting = false ∧
      (Console.init nodeIdle).node.writes = nodeIdle.writes) := by
  decide

/-- Claim C9 (amended): the `Console` constructor immediately calls
`sendCmd('export TERM=dumb')`; for a node that starts idle, immediately
after construction the session is Waiting, exactly that one command
(plus the line terminator) has been written to the process, the prompt
is `name + '# '`, and the buffer is empty. -/
theorem C9_amended_init (n : Node) (h : n.waiting = false) :
    (Console.init n).node.waiting = true ∧
    (Console.init n).node.writes = n.writes ++ exportTermDumb ++ [10] ∧
    (Console.init n).prompt = n.name ++ [35, 32] ∧
    (Console.init n).buffer = [] := by
  unfold Console.init Console.sendCmd Node.sendCmd
  simp [h]

theorem C9_witness :
    nodeIdle.waiting = false ∧
    ((Console.init nodeIdle).node.waiting = true ∧
      (Console.init nodeIdle).node.writes
        = nodeIdle.writes ++ exportTermDumb ++ [10] ∧
      (Console.init nodeIdle).prompt = nodeIdle.name ++ [35, 32] ∧
      (Console.init nodeIdle).buffer = []) :=
  ⟨rfl, C9_amended_init nodeIdle rfl⟩

/-- Claim C10: whenever `handleReadable` finds the node not waiting
after the read — including when the session was already idle and no
command just completed — it appends the prompt to the buffer, so a
second readiness or polling event with no data appends the prompt
again, duplicating it.  (The prompt is assumed free of ignored control
bytes, as any `name + '# '` prompt is, so the filter passes it
through.) -/
theorem C10_idle_prompt_duplication (s : Console) (chunk : List Nat)
    (hp : (s.prompt.all fun c => !isIgnored c) = true)
    (hw : (s.handleReadable chunk).node.waiting = false) :
    (s.handleReadable chunk).buffer
      = s.buffer ++ ignoreCharsSub chunk ++ s.prompt ∧
    ((s.handleReadable chunk).handleReadable []).buffer
      = s.buffer ++ ignoreCharsSub chunk ++ s.prompt ++ s.prompt := by
  have hw1 : (s.node.monitor chunk).2.waiting = false := by
    rw [handleReadable_node] at hw
    exact hw
  have hb1 : (s.handleReadable chunk).buffer
      = s.buffer ++ ignoreCharsSub chunk ++ s.prompt := by
    rw [handleReadable_buffer_of_idle s chunk hw1, ignoreCharsSub_eq_self s.prompt hp]
  refine ⟨hb1, ?_⟩
  have hw2 : ((s.handleReadable chunk).node.monitor []).2.waiting = false := by
    rw [monitor_nil]
    exact hw
  rw [handleReadable_buffer_of_idle (s.handleReadable chunk) [] hw2,
    handleReadable_prompt, hb1, ignoreCharsSub_eq_self s.prompt hp]
  simp [ignoreCharsSub]

theorem C10_witness :
    (cIdle.prompt.all fun c => !isIgnored c) = true ∧
    (Console.handleReadable cIdle [65]).node.waiting = false ∧
    ((Console.handleReadable cIdle [65]).buffer
        = cIdle.buffer ++ ignoreCharsSub [65] ++ cIdle.prompt ∧
      ((Console.handleReadable cIdle [65]).handleReadable []).buffer
        = cIdle.buffer ++ ignoreCharsSub [65] ++ cIdle.prompt ++ cIdle.prompt) :=
  ⟨by decide, by decide, C10_idle_prompt_duplication cIdle [65] (by decide) (by decide)⟩
